import Mathlib

/-!
Verification of the Moodle-freechat retrieval and RAG pipeline.

This file gives a shallow embedding of the core of the repository:
the multi-strategy search pipeline of
`Source/Services/search_on_index.py` (class
`AdvancedUnifiedContentSearch`), the adjacent-chunk expansion
(`get_adjacent_chunks`, `search_best_answers`), the RAG orchestrator of
`Source/Services/free_chat.py` (class `RAGSystem`) and the tutoring
orchestrator of `Source/Services/test_myself.py` (class
`AssistantHelper`).

External collaborators (the Azure search client, the embedding service,
the completion model, blob storage, the prompt-template store and the
wall clock) are modelled as an explicit environment record `Env` of
deterministic functions; a call that the Python code would observe as a
raised exception is modelled as an `Except.error` value returned by the
corresponding environment function.  Python dictionaries coming back
from the search backend are modelled as the record `Chunk` whose fields
are `Option`-valued, matching the `dict.get` access pattern of the
source; Python truthiness of an optional string (`None` and the empty
string are falsy) is `pyTruthy`.
-/

/-- The single-quote character, written by code point. -/
def quoc : Char := Char.ofNat 39

/-- The single-quote character as a one-character string. -/
def quo : String := String.singleton quoc

/-- Embeds Python `value.replace(chr(39), chr(39)*2)` as used for filter
escaping in `search_on_index.py`.  Because the pattern is a single
character, the Python replacement is exactly per-character duplication
of every quote character. -/
def escapeQuotes (s : String) : String :=
  String.mk (s.data.foldr (fun ch acc => if ch = quoc then quoc :: quoc :: acc else ch :: acc) [])

/-- Python truthiness of an optional string: `None` and the empty string
are falsy, any other string is truthy. -/
def pyTruthy : Option String → Bool
  | none => false
  | some s => !(s == "")

/-- Embeds Python `str.strip()`: removes leading and trailing
whitespace.  Implemented structurally over the character list (the
byte-position based `String.trim` of the library is defined by
well-founded recursion and does not reduce in the kernel). -/
def pyStrip (s : String) : String :=
  String.mk (((s.data.dropWhile Char.isWhitespace).reverse.dropWhile Char.isWhitespace).reverse)

/-- A content chunk as returned by the search backend.  The Python code
receives these as loosely-typed dicts and reads every field with
`dict.get`, so every field is optional here.  The backend relevance
score (dict key `@search.score`) is modelled as a rational. -/
structure Chunk where
  id : Option String := none
  content_type : Option String := none
  source_id : Option String := none
  course_id : Option String := none
  chunk_index : Option Int := none
  text : Option String := none
  start_time : Option String := none
  end_time : Option String := none
  section_title : Option String := none
  created_date : Option String := none
  keywords : Option String := none
  topics : Option String := none
  file_name : Option String := none
  score : Option Rat := none
deriving DecidableEq, Repr

/-- One call to `search_client.search`, recording the arguments that
distinguish the call sites of the source: the search text, the filter
expression, the `top` parameter, the semantic `query_type` with its
locale, and the attached vector query with its `k_nearest_neighbors`. -/
structure SearchCall where
  searchText : String
  filter : Option String := none
  top : Nat
  queryType : Option String := none
  queryLanguage : Option String := none
  vector : Option (List Rat) := none
  vectorK : Option Nat := none
deriving DecidableEq, Repr

/-- A chat message sent to the completion model. -/
structure Msg where
  role : String
  content : String
deriving DecidableEq, Repr

/-- A conversation-history entry.  Callers supply these as dicts and the
source reads them with `dict.get`, so the fields are optional. -/
structure HistMsg where
  role : Option String := none
  content : Option String := none
  timestamp : Option String := none
deriving DecidableEq, Repr

/-- The environment of external collaborators.  Each function is
deterministic; an `Except.error` result models a raised exception at
that call site, and `embed` models `generate_query_embedding`, which
catches its own exceptions and returns the empty vector on failure. -/
structure Env where
  embed : String → List Rat
  backend : SearchCall → Except String (List Chunk)
  complete : List Msg → Rat → Except String String
  downloadToMemory : String → Except String (Option String)
  getPrompt : String → String → List (String × String) → String
  now : String

/-- The filter clauses built by each search strategy of
`search_on_index.py`: one equality predicate per truthy identifier,
with embedded quotes doubled.  The same eleven lines appear verbatim in
`simple_text_search`, `hybrid_search` and `semantic_search`. -/
def filterClauses (source_id course_id : Option String) : List String :=
  (if pyTruthy source_id then
    ["source_id eq " ++ quo ++ escapeQuotes (source_id.getD "") ++ quo] else []) ++
  (if pyTruthy course_id then
    ["course_id eq " ++ quo ++ escapeQuotes (course_id.getD "") ++ quo] else [])

/-- The filter expression attached to a search call: the clauses joined
with " and ", or no filter at all when no clause is present. -/
def buildFilters (source_id course_id : Option String) : Option String :=
  let filters := filterClauses source_id course_id
  if filters.isEmpty then none else some (String.intercalate " and " filters)

/-- The backend call issued by `simple_text_search`. -/
def simpleTextSearchCall (query : String) (top_k : Nat) (source_id course_id : Option String) :
    SearchCall :=
  { searchText := query, filter := buildFilters source_id course_id, top := top_k }

/-- Embeds `AdvancedUnifiedContentSearch.simple_text_search`: a keyword
query with the composed filter; any backend exception is caught and
yields the empty list. -/
def simpleTextSearch (env : Env) (query : String) (top_k : Nat)
    (source_id course_id : Option String) : List Chunk :=
  match env.backend (simpleTextSearchCall query top_k source_id course_id) with
  | .ok docs => docs
  | .error _ => []

/-- The backend call issued by `hybrid_search`: keyword text plus a
vector query with `k_nearest_neighbors = 50` and `top = 50`. -/
def hybridSearchCall (query : String) (vec : List Rat) (source_id course_id : Option String) :
    SearchCall :=
  { searchText := query, filter := buildFilters source_id course_id, top := 50,
    vector := some vec, vectorK := some 50 }

/-- Embeds `AdvancedUnifiedContentSearch.hybrid_search`: if the
embedding step yields the empty vector it degrades to
`simple_text_search`; otherwise it issues the hybrid call, slices the
returned pool to `top_k`, and catches any backend exception as the
empty list. -/
def hybridSearch (env : Env) (query : String) (top_k : Nat)
    (source_id course_id : Option String) : List Chunk :=
  let query_vector := env.embed query
  if query_vector.isEmpty then
    simpleTextSearch env query top_k source_id course_id
  else
    match env.backend (hybridSearchCall query query_vector source_id course_id) with
    | .ok docs => docs.take top_k
    | .error _ => []

/-- The backend call issued by `semantic_search`: semantic query type
with locale he-il, a vector query with `k_nearest_neighbors = top_k`,
and `top = top_k`. -/
def semanticSearchCall (query : String) (vec : List Rat) (top_k : Nat)
    (source_id course_id : Option String) : SearchCall :=
  { searchText := query, filter := buildFilters source_id course_id, top := top_k,
    queryType := some "semantic", queryLanguage := some "he-il",
    vector := some vec, vectorK := some top_k }

/-- Embeds `AdvancedUnifiedContentSearch.semantic_search`: if the
embedding step yields the empty vector it degrades to
`simple_text_search`; if the semantic backend call raises, the except
clause falls back to `hybrid_search` with the same arguments. -/
def semanticSearch (env : Env) (query : String) (top_k : Nat)
    (source_id course_id : Option String) : List Chunk :=
  let query_vector := env.embed query
  if query_vector.isEmpty then
    simpleTextSearch env query top_k source_id course_id
  else
    match env.backend (semanticSearchCall query query_vector top_k source_id course_id) with
    | .ok docs => docs
    | .error _ => hybridSearch env query top_k source_id course_id

/-- The filter expression used by `get_adjacent_chunks` for one
neighbor lookup, built from the already-escaped identifiers and the
neighbor index. -/
def adjacentFilter (escaped_source escaped_course : String) (idx : Int) : String :=
  "source_id eq " ++ quo ++ escaped_source ++ quo ++
  " and course_id eq " ++ quo ++ escaped_course ++ quo ++
  " and chunk_index eq " ++ toString idx

/-- The backend call issued by `get_adjacent_chunks` for one neighbor
lookup: a wildcard text query with the neighbor filter and `top = 1`. -/
def adjacentCall (escaped_source escaped_course : String) (idx : Int) : SearchCall :=
  { searchText := "*", filter := some (adjacentFilter escaped_source escaped_course idx),
    top := 1 }

/-- Embeds `AdvancedUnifiedContentSearch.get_adjacent_chunks`.  Returns
both the found neighbor chunks and the trace of backend calls actually
issued, so that theorems can speak about which lookups happen.  The
source bails out (returning no chunks and issuing no call) when
`source_id` or `course_id` is falsy or `chunk_index` is `None`; it
performs the before-lookup only when `chunk_index > 0`, and each
lookup catches its own backend exception and is then skipped. -/
def getAdjacentChunks (env : Env) (chunk : Chunk) : List Chunk × List SearchCall :=
  match chunk.source_id, chunk.course_id, chunk.chunk_index with
  | some sid, some cid, some chunk_index =>
    if sid = "" ∨ cid = "" then ([], [])
    else
      let escaped_source_id := escapeQuotes sid
      let escaped_course_id := escapeQuotes cid
      let beforePart : List Chunk × List SearchCall :=
        if chunk_index > 0 then
          let call := adjacentCall escaped_source_id escaped_course_id (chunk_index - 1)
          (match env.backend call with
           | .ok docs => docs
           | .error _ => [], [call])
        else ([], [])
      let afterCall := adjacentCall escaped_source_id escaped_course_id (chunk_index + 1)
      let afterDocs :=
        match env.backend afterCall with
        | .ok docs => docs
        | .error _ => []
      (beforePart.1 ++ afterDocs, beforePart.2 ++ [afterCall])
  | _, _, _ => ([], [])

/-- One step of the accumulating deduplication of
`search_best_answers`: a chunk is appended only when its id is truthy
and not yet in the seen set (the seen set is modelled as the list of
ids added so far; only membership is ever used). -/
def addChunkIfNew (acc : List Chunk) (seen : List String) (chunk : Chunk) :
    List Chunk × List String :=
  match chunk.id with
  | some cid => if cid ≠ "" ∧ cid ∉ seen then (acc ++ [chunk], seen ++ [cid]) else (acc, seen)
  | none => (acc, seen)

/-- The expansion loop of `search_best_answers` over the ranked
results: for each ranked chunk, first the chunk itself and then each of
its adjacent chunks is added through the deduplicating accumulator.
The `fault` argument is an oracle for the try/except of the source: the
loop body runs inside the outer `try`, and `fault = some i` models an
exception delivered at an await point while processing the ranked chunk
number `i` (every inner call catches its own exceptions, so only such
an asynchronous fault can reach the outer handler). -/
def expandWithAdjacent (env : Env) (fault : Option Nat) :
    List Chunk → Nat → List Chunk → List String → Except String (List Chunk)
  | [], _, acc, _ => .ok acc
  | chunk :: rest, i, acc, seen =>
    if fault = some i then .error "interrupted"
    else
      let st1 := addChunkIfNew acc seen chunk
      let adjacent_chunks := (getAdjacentChunks env chunk).1
      let st2 := adjacent_chunks.foldl (fun st c => addChunkIfNew st.1 st.2 c) st1
      expandWithAdjacent env fault rest (i + 1) st2.1 st2.2

/-- Embeds `AdvancedUnifiedContentSearch.search_best_answers` with the
fault oracle for its outer try/except.  The primary strategy is
`semantic_search` (its own except clause already degrades to
`hybrid_search`, so the inner `except` re-dispatch of the source is
dead in this model); an empty ranked list short-circuits to the empty
result; if the expansion loop is interrupted the outer handler runs
`semantic_search` again and returns its (unexpanded) results — the
handler fallback to `hybrid_search` is likewise dead because
`semantic_search` never raises past its own boundary. -/
def searchBestAnswersF (env : Env) (fault : Option Nat) (query : String) (k : Nat)
    (source_id course_id : Option String) : List Chunk :=
  let original_results := semanticSearch env query k source_id course_id
  if original_results.isEmpty then []
  else
    match expandWithAdjacent env fault original_results 0 [] [] with
    | .ok all_chunks => all_chunks
    | .error _ => semanticSearch env query k source_id course_id

/-- The fault-free run of `search_best_answers` (no exception is
delivered during the expansion). -/
def searchBestAnswers (env : Env) (query : String) (k : Nat)
    (source_id course_id : Option String) : List Chunk :=
  searchBestAnswersF env none query k source_id course_id

/-- The numbered context parts built by
`RAGSystem._build_context_from_chunks`: one part per chunk, in order,
numbered from `i`. -/
def contextParts (i : Nat) : List Chunk → List String
  | [] => []
  | chunk :: rest => ("Source " ++ toString i ++ ":\n" ++ chunk.text.getD "") :: contextParts (i + 1) rest

/-- Embeds `RAGSystem._build_context_from_chunks`: the numbered parts
joined with a blank-line separator. -/
def buildContextFromChunks (chunks : List Chunk) : String :=
  String.intercalate "\n\n" (contextParts 1 chunks)

/-- The base system prompt of `RAGSystem._get_system_prompt`, copied
from the triple-quoted literal of the source (including the eight
spaces of indentation its continuation lines carry). -/
def basePrompt : String :=
  "You are an expert Hebrew-speaking tutoring assistant that operates inside a RAG pipeline.\n" ++
  "\n" ++
  "        Your role:\n" ++
  "        - Answer in Hebrew accurately and helpfully\n" ++
  "        - Base your answer only on the information provided in the context\n" ++
  "        - Consider the conversation history for context\n" ++
  "        - If the information is not sufficient for a complete answer, mention this\n" ++
  "        - Organize the answer logically and clearly\n" ++
  "        - This is a dedicated model to help students learn the material. If asked about something unrelated, respond that this is not its role.\n" ++
  "\n" ++
  "        Response style:\n" ++
  "        - Respond like an encouraging and interactive chatbot, not just a static answer\n" ++
  "        - Use a friendly and pedagogical tone to support learning and exploration\n" ++
  "        - Clear and professional\n" ++
  "        - Structured and organized\n" ++
  "        - Suitable for students and learners\n" ++
  "        - Include examples when relevant\n" ++
  "\n" ++
  "        Guidelines for using the context:\n" ++
  "        1. Answer based on the information provided in the context above\n" ++
  "        2. Consider the conversation history for better understanding\n" ++
  "        3. If the context doesn" ++ quo ++ "t contain sufficient information for a complete answer, mention this"

/-- The syllabus appendix of `RAGSystem._get_system_prompt`, copied
from the f-string literal of the source. -/
def syllabusSection (syllabus_content : String) : String :=
  "\n" ++
  "\n" ++
  "        COURSE SYLLABUS:\n" ++
  "        The following is the course syllabus that provides important context about the course structure, topics, and learning objectives:\n" ++
  "\n" ++
  "        " ++ syllabus_content ++ "\n" ++
  "\n" ++
  "        Use this syllabus information to:\n" ++
  "        - Better understand the course context and structure\n" ++
  "        - Reference relevant topics from the syllabus when appropriate\n" ++
  "        - Help students understand how topics fit into the overall course structure"

/-- Embeds `RAGSystem._get_system_prompt`: the base persona, with the
syllabus appendix appended when the syllabus text is truthy. -/
def getSystemPrompt (syllabus_content : String) : String :=
  if syllabus_content ≠ "" then basePrompt ++ syllabusSection syllabus_content
  else basePrompt

/-- The role sanitization of `RAGSystem._build_conversation_messages`:
anything other than assistant or user is coerced to user. -/
def sanitizeRole (role : String) : String :=
  if role ≠ "assistant" ∧ role ≠ "user" then "user" else role

/-- The current user message as composed inside
`RAGSystem._build_conversation_messages` and sent to the completion
model.  The f-string of the source is written inside the method body,
so its continuation lines carry eight spaces of indentation before
`Relevant context:` and before the context block. -/
def modelUserMessage (user_message context : String) : String :=
  "User query: " ++ user_message ++ "\n\n        Relevant context:\n        " ++ context

/-- The user message as re-composed inside `generate_answer` when the
new exchange is appended to the conversation history.  This second
f-string is written with its continuation lines at column zero, so it
carries no indentation. -/
def historyUserMessage (user_message context : String) : String :=
  "User query: " ++ user_message ++ "\n\nRelevant context:\n" ++ context

/-- Embeds `RAGSystem._build_conversation_messages`: one system message
(persona plus optional syllabus), every prior history message with its
role sanitized and missing fields defaulted, then the current user
message with the context block. -/
def buildConversationMessages (conversation_history : List HistMsg)
    (user_message context syllabus_content : String) : List Msg :=
  [{ role := "system", content := getSystemPrompt syllabus_content }] ++
  conversation_history.map (fun msg =>
    { role := sanitizeRole (msg.role.getD "user"), content := msg.content.getD "" }) ++
  [{ role := "user", content := modelUserMessage user_message context }]

/-- Embeds `RAGSystem._load_syllabus`: downloads
`{course_id}/syllabus.md` from blob storage; a missing blob or any
exception yields the empty string. -/
def loadSyllabus (env : Env) (course_id : String) : String :=
  match env.downloadToMemory (course_id ++ "/syllabus.md") with
  | .ok (some content) => content
  | .ok none => ""
  | .error _ => ""

/-- One source-summary record as built by
`RAGSystem._extract_sources_info`.  A field that the source adds to the
dict only conditionally is `none` when the key is absent. -/
structure SourceInfo where
  index : Nat
  source_id : String
  course_id : String
  chunk_index : Int
  relevance_score : Rat
  text_preview : String
  start_time : Option String := none
  end_time : Option String := none
  section_title : Option String := none
deriving DecidableEq, Repr

/-- The record built for one chunk by
`RAGSystem._extract_sources_info`: base fields copied with defaults,
and the sparse fields added only when truthy on the chunk. -/
def extractSourceInfo (i : Nat) (chunk : Chunk) : SourceInfo :=
  { index := i
    source_id := chunk.source_id.getD ""
    course_id := chunk.course_id.getD ""
    chunk_index := chunk.chunk_index.getD 0
    relevance_score := chunk.score.getD 0
    text_preview := chunk.text.getD ""
    start_time := if pyTruthy chunk.start_time then chunk.start_time else none
    end_time := if pyTruthy chunk.end_time then chunk.end_time else none
    section_title := if pyTruthy chunk.section_title then chunk.section_title else none }

/-- The enumeration loop of `RAGSystem._extract_sources_info`, numbered
from `i`. -/
def extractSourcesInfoFrom (i : Nat) : List Chunk → List SourceInfo
  | [] => []
  | chunk :: rest => extractSourceInfo i chunk :: extractSourcesInfoFrom (i + 1) rest

/-- Embeds `RAGSystem._extract_sources_info`: one record per chunk,
1-indexed, in input order. -/
def extractSourcesInfo (chunks : List Chunk) : List SourceInfo :=
  extractSourcesInfoFrom 1 chunks

/-- The response envelope of `RAGSystem.generate_answer`.  The success
path of the source builds a dict without an `error` key; that absence
is `error = none`. -/
structure RAGResult where
  conversation_id : String
  conversation_history : List HistMsg
  course_id : String
  user_message : String
  stage : String
  final_answer : String
  sources : List SourceInfo
  timestamp : String
  success : Bool
  error : Option String := none
deriving DecidableEq, Repr

/-- The localized no-content answer of `generate_answer`, copied from
the source. -/
def noRelevantAnswer : String :=
  "מצטער, לא מצאתי מידע רלוונטי לשאלתך במאגר הידע. אנא נסה לנסח את השאלה בצורה אחרת."

/-- Embeds `RAGSystem.generate_answer`: load the syllabus, retrieve via
`semantic_search` scoped by the optional source and the course,
short-circuit with an unchanged history when nothing is retrieved,
otherwise assemble the context and message sequence, invoke the model,
and append the two new history entries; a model exception is caught by
the top-level handler and echoed in a failure envelope with the input
history unmodified. -/
def generateAnswer (env : Env) (conversation_id : String)
    (conversation_history : List HistMsg) (course_id user_message stage : String)
    (source_id : Option String) (top_k : Nat) (temperature : Rat) : RAGResult :=
  let syllabus_content := loadSyllabus env course_id
  let search_results := semanticSearch env user_message top_k source_id (some course_id)
  if search_results.isEmpty then
    { conversation_id := conversation_id
      conversation_history := conversation_history
      course_id := course_id
      user_message := user_message
      stage := stage
      final_answer := noRelevantAnswer
      sources := []
      timestamp := env.now
      success := false
      error := some "No relevant content found in RAG" }
  else
    let context := buildContextFromChunks search_results
    let messages := buildConversationMessages conversation_history user_message context syllabus_content
    match env.complete messages temperature with
    | .error e =>
      { conversation_id := conversation_id
        conversation_history := conversation_history
        course_id := course_id
        user_message := user_message
        stage := stage
        final_answer := "Error: " ++ e
        sources := []
        timestamp := env.now
        success := false
        error := some e }
    | .ok content =>
      let final_answer := pyStrip content
      let sources := extractSourcesInfo search_results
      let updated_conversation_history := conversation_history ++
        [{ role := some "user"
           content := some (historyUserMessage user_message context)
           timestamp := some env.now },
         { role := some "assistant"
           content := some final_answer
           timestamp := some env.now }]
      { conversation_id := conversation_id
        conversation_history := updated_conversation_history
        course_id := course_id
        user_message := user_message
        stage := stage
        final_answer := final_answer
        sources := sources
        timestamp := env.now
        success := true
        error := none }

/-- A Python value as it appears in the response dicts of
`AssistantHelper.get_help`.  The envelope itself is modelled as an
association list of key/value pairs in dict-literal order, so that
theorems can speak about which keys an envelope carries. -/
inductive PyVal where
  | vs : String → PyVal
  | vi : Int → PyVal
  | vr : Rat → PyVal
  | vb : Bool → PyVal
  | arr : List PyVal → PyVal
  | obj : List (String × PyVal) → PyVal

/-- A conversation-history entry rendered back to a Python dict: a key
is present exactly when the field is present. -/
def histMsgVal (m : HistMsg) : PyVal :=
  PyVal.obj
    ((match m.role with | some r => [("role", PyVal.vs r)] | none => []) ++
     (match m.content with | some c => [("content", PyVal.vs c)] | none => []) ++
     (match m.timestamp with | some t => [("timestamp", PyVal.vs t)] | none => []))

/-- The numbered context parts built by `AssistantHelper._build_context`. -/
def helpContextParts (i : Nat) : List Chunk → List String
  | [] => []
  | result :: rest =>
    ("מקור " ++ toString i ++ ": " ++ result.text.getD "") :: helpContextParts (i + 1) rest

/-- Embeds `AssistantHelper._build_context`: numbered parts joined with
a blank-line separator. -/
def buildHelpContext (results : List Chunk) : String :=
  String.intercalate "\n\n" (helpContextParts 1 results)

/-- The per-message lines of `AssistantHelper._build_conversation_context`. -/
def conversationContextLines (msgs : List HistMsg) : List String :=
  msgs.map fun msg =>
    (if msg.role = some "user" then "סטודנט" else "מורה") ++ ": " ++ msg.content.getD ""

/-- Embeds `AssistantHelper._build_conversation_context`: a fixed line
for an empty history, otherwise a header line followed by the last five
history messages. -/
def buildConversationContext (conversation_history : List HistMsg) : String :=
  if conversation_history.isEmpty then "זוהי תחילת השיחה."
  else
    String.intercalate "\n"
      ("הקשר השיחה הקודמת:" ::
        conversationContextLines
          (conversation_history.drop (conversation_history.length - 5)))

/-- The source-summary dicts built inside `get_help`: 1-indexed, with a
preview of the first 150 characters of the text followed by an
ellipsis. -/
def helpSourceRecords (i : Nat) : List Chunk → List PyVal
  | [] => []
  | result :: rest =>
    PyVal.obj
      [("index", PyVal.vi (Int.ofNat i)),
       ("source_id", PyVal.vs (result.source_id.getD "")),
       ("content_type", PyVal.vs (result.content_type.getD "")),
       ("score", PyVal.vr (result.score.getD 0)),
       ("preview", PyVal.vs ((result.text.getD "").take 150 ++ "..."))] ::
    helpSourceRecords (i + 1) rest

/-- The failure envelope shared by the invalid-mode and no-content
paths of `get_help`: the same eight keys in the same dict-literal
order, differing only in the response text. -/
def helpFailureEnvelope (conversation_id mode identifier query response now : String) :
    List (String × PyVal) :=
  [("conversation_id", PyVal.vs conversation_id),
   ("mode", PyVal.vs mode),
   ("identifier", PyVal.vs identifier),
   ("query", PyVal.vs query),
   ("response", PyVal.vs response),
   ("sources", PyVal.arr []),
   ("success", PyVal.vb false),
   ("timestamp", PyVal.vs now)]

/-- The exception envelope of `get_help`, carrying an additional
`error` key. -/
def helpErrorEnvelope (conversation_id mode identifier query e now : String) :
    List (String × PyVal) :=
  [("conversation_id", PyVal.vs conversation_id),
   ("mode", PyVal.vs mode),
   ("identifier", PyVal.vs identifier),
   ("query", PyVal.vs query),
   ("response", PyVal.vs ("שגיאה: " ++ e)),
   ("sources", PyVal.arr []),
   ("success", PyVal.vb false),
   ("error", PyVal.vs e),
   ("timestamp", PyVal.vs now)]

/-- The body of `AssistantHelper.get_help` once the mode has been
dispatched and the retrieval has run: the no-content short-circuit,
context and prompt assembly, the model call, and the success envelope
with the extended conversation history; a model exception is caught by
the except clause and becomes the error envelope. -/
def getHelpWithResults (env : Env) (conversation_id : String)
    (conversation_history : List HistMsg) (mode identifier query : String)
    (results : List Chunk) : List (String × PyVal) :=
  if results.isEmpty then
    helpFailureEnvelope conversation_id mode identifier query
      "לא נמצא תוכן רלוונטי לשאלתך" env.now
  else
    let context := buildHelpContext results
    let conversation_context := buildConversationContext conversation_history
    let system_prompt := env.getPrompt "test_myself" "system" []
    let user_prompt := env.getPrompt "test_myself" "user"
      [("conversation_context", conversation_context), ("context", context), ("query", query)]
    match env.complete
        [{ role := "system", content := system_prompt },
         { role := "user", content := user_prompt }] (4 / 10 : Rat) with
    | .error e => helpErrorEnvelope conversation_id mode identifier query e env.now
    | .ok content =>
      let ai_response := pyStrip content
      let sources := helpSourceRecords 1 results
      let updated_conversation_history := conversation_history ++
        [{ role := some "user", content := some query, timestamp := some env.now },
         { role := some "assistant", content := some ai_response, timestamp := some env.now }]
      [("conversation_id", PyVal.vs conversation_id),
       ("conversation_history", PyVal.arr (updated_conversation_history.map histMsgVal)),
       ("mode", PyVal.vs mode),
       ("identifier", PyVal.vs identifier),
       ("query", PyVal.vs query),
       ("response", PyVal.vs ai_response),
       ("sources", PyVal.arr sources),
       ("success", PyVal.vb true),
       ("timestamp", PyVal.vs env.now)]

/-- Embeds `AssistantHelper.get_help`: lecture mode searches the given
source with `top_k = 5`, full-course mode searches the given course
with `top_k = 8`, and any other mode is rejected before retrieval with
a localized client-error envelope. -/
def getHelp (env : Env) (conversation_id : String)
    (conversation_history : List HistMsg) (mode identifier query : String) :
    List (String × PyVal) :=
  if mode = "lecture" then
    getHelpWithResults env conversation_id conversation_history mode identifier query
      (semanticSearch env query 5 (some identifier) none)
  else if mode = "full_course" then
    getHelpWithResults env conversation_id conversation_history mode identifier query
      (semanticSearch env query 8 none (some identifier))
  else
    helpFailureEnvelope conversation_id mode identifier query
      ("מצב לא תקין: " ++ mode ++ ". השתמש ב-" ++ quo ++ "lecture" ++ quo ++
       " או " ++ quo ++ "full_course" ++ quo) env.now

/-- First-occurrence deduplication by truthy id: the canonical
description of the accumulating-set behavior of the expansion loop of
`search_best_answers`, used to state that every chunk is emitted at
most once, at its first-encountered position. -/
def dedupById : List Chunk → List String → List Chunk
  | [], _ => []
  | c :: rest, seen =>
    match c.id with
    | some cid =>
      if cid ≠ "" ∧ cid ∉ seen then c :: dedupById rest (seen ++ [cid])
      else dedupById rest seen
    | none => dedupById rest seen

/-- The raw emission order of the expansion of `search_best_answers`
before deduplication: each ranked chunk followed by its adjacent
chunks, in ranked order. -/
def expansionStream (env : Env) (chunks : List Chunk) : List Chunk :=
  chunks.flatMap fun c => c :: (getAdjacentChunks env c).1

/-- The key list of a `get_help` envelope, in dict-literal order. -/
def helpEnvelopeKeys (r : List (String × PyVal)) : List String := r.map Prod.fst

/-- The keys of the invalid-mode and no-content envelopes of `get_help`. -/
def helpKeysFailure : List String :=
  ["conversation_id", "mode", "identifier", "query", "response", "sources", "success",
   "timestamp"]

/-- The keys of the success envelope of `get_help`. -/
def helpKeysSuccess : List String :=
  ["conversation_id", "conversation_history", "mode", "identifier", "query", "response",
   "sources", "success", "timestamp"]

/-- The keys of the exception envelope of `get_help`. -/
def helpKeysError : List String :=
  ["conversation_id", "mode", "identifier", "query", "response", "sources", "success",
   "error", "timestamp"]

/-- A neutral environment: the embedding service fails closed (empty
vector), the backend finds nothing, and every other collaborator
answers trivially. -/
def envNoop : Env :=
  { embed := fun _ => []
    backend := fun _ => .ok []
    complete := fun _ _ => .ok ""
    downloadToMemory := fun _ => .ok none
    getPrompt := fun _ _ _ => ""
    now := "2025-01-01T00:00:00" }

/-- An environment whose embedding service works but whose backend
raises on every semantic-mode call. -/
def envSemanticRaises : Env :=
  { envNoop with
    embed := fun _ => [1]
    backend := fun call =>
      if call.queryType = some "semantic" then .error "boom" else .ok [] }

/-- Ranked chunk number five of the deduplication scenario. -/
def c5chunk : Chunk :=
  { id := some "c5", source_id := some "s", course_id := some "c",
    chunk_index := some 5, text := some "five" }

/-- Ranked chunk number six of the deduplication scenario: the
index-plus-one neighbor of `c5chunk`. -/
def c6chunk : Chunk :=
  { id := some "c6", source_id := some "s", course_id := some "c",
    chunk_index := some 6, text := some "six" }

/-- The backend of the deduplication scenario: the semantic query ranks
`[c5chunk, c6chunk]`; the neighbor lookups find the chunk at index 6
and at index 5 and nothing elsewhere. -/
def scenarioBackend (call : SearchCall) : Except String (List Chunk) :=
  if call.queryType = some "semantic" then .ok [c5chunk, c6chunk]
  else if call.filter = some (adjacentFilter "s" "c" 6) then .ok [c6chunk]
  else if call.filter = some (adjacentFilter "s" "c" 5) then .ok [c5chunk]
  else .ok []

/-- The environment of the deduplication scenario. -/
def envScenario : Env :=
  { envNoop with embed := fun _ => [1], backend := scenarioBackend }

/-- The single retrieved chunk of the concrete RAG run. -/
def chunkAlpha : Chunk :=
  { id := some "A", source_id := some "s1", course_id := some "c1",
    chunk_index := some 0, text := some "alpha", score := some 1 }

/-- An environment for a fully successful `generate_answer` run: the
semantic query retrieves `chunkAlpha`, no syllabus exists, and the
model answers with surrounding whitespace to be trimmed. -/
def envRAG : Env :=
  { embed := fun _ => [1]
    backend := fun call =>
      if call.queryType = some "semantic" then .ok [chunkAlpha] else .ok []
    complete := fun _ _ => .ok "  the answer  "
    downloadToMemory := fun _ => .ok none
    getPrompt := fun _ _ _ => ""
    now := "2025-01-01T10:00:00" }

/-- One pre-existing conversation turn. -/
def histPrev : HistMsg :=
  { role := some "user", content := some "hi", timestamp := some "t0" }

/-- An environment for `get_help` whose retrieval always finds one
chunk and whose model answers. -/
def envHelp : Env :=
  { envNoop with
    embed := fun _ => [1]
    backend := fun _ => .ok [c5chunk]
    complete := fun _ _ => .ok "ans" }

/-- A chunk sitting at the start of its source. -/
def chunkAtStart : Chunk :=
  { id := some "z0", source_id := some "s", course_id := some "c",
    chunk_index := some 0, text := some "zero" }

/-- A 250-character text body. -/
def longText : String := String.mk (List.replicate 250 'a')

/-- A chunk whose text is longer than every preview length appearing in
this codebase (150 in `get_help`, 200 in the logging previews). -/
def chunkLongText : Chunk := { id := some "L", text := some longText }

/-- A video-style chunk with times but no section title, for the
source-summary extraction. -/
def chunkVideo : Chunk :=
  { id := some "V", source_id := some "s", course_id := some "c",
    chunk_index := some 2, text := some "t", score := some 1,
    start_time := some "00:01", end_time := some "00:02" }

theorem intercalate_single (s x : String) : String.intercalate s [x] = x := rfl

theorem intercalate_pair (s x y : String) : String.intercalate s [x, y] = x ++ s ++ y := rfl

theorem escapeQuotes_data_count (l : List Char) :
    ((l.foldr (fun ch acc => if ch = quoc then quoc :: quoc :: acc else ch :: acc) []).count quoc)
      = 2 * l.count quoc := by
  induction l with
  | nil => rfl
  | cons c cs ih =>
    by_cases hc : c = quoc
    · subst hc
      simp [List.count_cons, ih]
      omega
    · simp [List.count_cons, hc, ih]

/-- Claim C10: for each of the three search strategies, passing the
empty string as `source_id` or as `course_id` produces exactly the call
and result produced by omitting the argument, because the empty string
is falsy in the filter-building conditionals. -/
theorem empty_scope_filter_is_no_filter :
    ∀ (env : Env) (q : String) (k : Nat),
      (∀ cid : Option String,
        simpleTextSearch env q k (some "") cid = simpleTextSearch env q k none cid ∧
        hybridSearch env q k (some "") cid = hybridSearch env q k none cid ∧
        semanticSearch env q k (some "") cid = semanticSearch env q k none cid) ∧
      (∀ sid : Option String,
        simpleTextSearch env q k sid (some "") = simpleTextSearch env q k sid none ∧
        hybridSearch env q k sid (some "") = hybridSearch env q k sid none ∧
        semanticSearch env q k sid (some "") = semanticSearch env q k sid none) := by
  intro env q k
  exact ⟨fun cid => ⟨rfl, rfl, rfl⟩, fun sid => ⟨rfl, rfl, rfl⟩⟩

/-- Claim C4: the filter expression is the " and "-conjunction of one
equality predicate per present identifier, absent identifiers are
omitted entirely (no filter at all when both are absent), every quote
character of a value is doubled by the escaping before it is embedded,
and each of the three strategies attaches exactly this expression to
its backend call. -/
theorem filter_expression_structure :
    buildFilters none none = none ∧
    buildFilters (some "") (some "") = none ∧
    (∀ v : String, v ≠ "" →
      buildFilters (some v) none = some ("source_id eq " ++ quo ++ escapeQuotes v ++ quo) ∧
      buildFilters none (some v) = some ("course_id eq " ++ quo ++ escapeQuotes v ++ quo)) ∧
    (∀ v w : String, v ≠ "" → w ≠ "" →
      buildFilters (some v) (some w) =
        some ("source_id eq " ++ quo ++ escapeQuotes v ++ quo ++ " and " ++
              ("course_id eq " ++ quo ++ escapeQuotes w ++ quo))) ∧
    (∀ v : String, (escapeQuotes v).data.count quoc = 2 * v.data.count quoc) ∧
    (∀ (q : String) (k : Nat) (sid cid : Option String),
      (simpleTextSearchCall q k sid cid).filter = buildFilters sid cid ∧
      (∀ vec, (hybridSearchCall q vec sid cid).filter = buildFilters sid cid) ∧
      (∀ vec, (semanticSearchCall q vec k sid cid).filter = buildFilters sid cid)) := by
  refine ⟨rfl, rfl, ?_, ?_, ?_, ?_⟩
  · intro v hv
    have hb : pyTruthy (some v) = true := by simp [pyTruthy, hv]
    constructor
    · simp [buildFilters, filterClauses, hb, pyTruthy, hv, intercalate_single]
    · simp [buildFilters, filterClauses, hb, pyTruthy, hv, intercalate_single]
  · intro v w hv hw
    have hbv : pyTruthy (some v) = true := by simp [pyTruthy, hv]
    have hbw : pyTruthy (some w) = true := by simp [pyTruthy, hw]
    simp [buildFilters, filterClauses, hbv, hbw, pyTruthy, hv, hw, intercalate_pair]
  · intro v
    exact escapeQuotes_data_count v.data
  · intro q k sid cid
    exact ⟨rfl, fun vec => rfl, fun vec => rfl⟩

/-- Witness for `filter_expression_structure`: a source identifier
containing a quote character yields a single source clause with the
quote doubled by the escaping. -/
theorem filter_expression_structure_witness :
    ("a" ++ quo ++ "b" ≠ "") ∧
    buildFilters (some ("a" ++ quo ++ "b")) none =
      some ("source_id eq " ++ quo ++ escapeQuotes ("a" ++ quo ++ "b") ++ quo) :=
  ⟨by decide, (filter_expression_structure.2.2.1 ("a" ++ quo ++ "b") (by decide)).1⟩

/-- Claim C2: when the embedding step fails closed (empty vector), both
`semantic_search` and `hybrid_search` return exactly the result of
`simple_text_search` with the same query and filters; and when the
semantic backend call itself raises, `semantic_search` returns the
result of `hybrid_search` with the same arguments. -/
theorem fallback_ordering :
    ∀ (env : Env) (q : String) (k : Nat) (sid cid : Option String),
      (env.embed q = [] →
        semanticSearch env q k sid cid = simpleTextSearch env q k sid cid ∧
        hybridSearch env q k sid cid = simpleTextSearch env q k sid cid) ∧
      (∀ e : String,
        env.backend (semanticSearchCall q (env.embed q) k sid cid) = .error e →
        env.embed q ≠ [] →
        semanticSearch env q k sid cid = hybridSearch env q k sid cid) := by
  intro env q k sid cid
  refine ⟨fun h => ⟨?_, ?_⟩, fun e hb hne => ?_⟩
  · simp [semanticSearch, h]
  · simp [hybridSearch, h]
  · have hf : (env.embed q).isEmpty = false := by
      simpa [List.isEmpty_iff] using hne
    simp [semanticSearch, hf, hb]

/-- Witness for `fallback_ordering`: under `envNoop` the embedding
fails and both strategies coincide with text search; under
`envSemanticRaises` the semantic call raises and semantic search
coincides with hybrid search. -/
theorem fallback_ordering_witness :
    (envNoop.embed "q" = [] ∧
      semanticSearch envNoop "q" 3 none none = simpleTextSearch envNoop "q" 3 none none ∧
      hybridSearch envNoop "q" 3 none none = simpleTextSearch envNoop "q" 3 none none) ∧
    (envSemanticRaises.backend
        (semanticSearchCall "q" (envSemanticRaises.embed "q") 3 none none) = .error "boom" ∧
      envSemanticRaises.embed "q" ≠ [] ∧
      semanticSearch envSemanticRaises "q" 3 none none =
        hybridSearch envSemanticRaises "q" 3 none none) :=
  ⟨⟨rfl, ((fallback_ordering envNoop "q" 3 none none).1 rfl).1,
        ((fallback_ordering envNoop "q" 3 none none).1 rfl).2⟩,
   ⟨rfl, by simp [envSemanticRaises, envNoop],
    (fallback_ordering envSemanticRaises "q" 3 none none).2 "boom" rfl
      (by simp [envSemanticRaises, envNoop])⟩⟩

/-- Claim C9: a chunk whose `chunk_index` is zero never triggers a
before-neighbor lookup — the trace of backend calls issued by
`get_adjacent_chunks` is either empty (required field missing or falsy)
or exactly the single after-lookup at index one. -/
theorem no_before_lookup_at_index_zero :
    ∀ (env : Env) (chunk : Chunk), chunk.chunk_index = some 0 →
      (getAdjacentChunks env chunk).2 = [] ∨
      (getAdjacentChunks env chunk).2 =
        [adjacentCall (escapeQuotes (chunk.source_id.getD ""))
                      (escapeQuotes (chunk.course_id.getD "")) 1] := by
  intro env chunk h
  cases hs : chunk.source_id with
  | none => left; simp [getAdjacentChunks, hs, h]
  | some sid =>
    cases hc : chunk.course_id with
    | none => left; simp [getAdjacentChunks, hs, hc, h]
    | some cid =>
      by_cases hside : sid = "" ∨ cid = ""
      · left; simp [getAdjacentChunks, hs, hc, h, hside]
      · right; simp [getAdjacentChunks, hs, hc, h, hside]

/-- Witness for `no_before_lookup_at_index_zero`: a concrete chunk at
index zero issues only the after-lookup at index one. -/
theorem no_before_lookup_at_index_zero_witness :
    chunkAtStart.chunk_index = some 0 ∧
    ((getAdjacentChunks envNoop chunkAtStart).2 = [] ∨
      (getAdjacentChunks envNoop chunkAtStart).2 =
        [adjacentCall (escapeQuotes (chunkAtStart.source_id.getD ""))
                      (escapeQuotes (chunkAtStart.course_id.getD "")) 1]) :=
  ⟨rfl, no_before_lookup_at_index_zero envNoop chunkAtStart rfl⟩

/-- Claim C5: when retrieval returns zero chunks, `generate_answer`
short-circuits before any model invocation and returns a failure
envelope with the localized no-content answer, no sources, and the
input history unchanged. -/
theorem no_content_short_circuit :
    ∀ (env : Env) (conversation_id : String) (conversation_history : List HistMsg)
      (course_id user_message stage : String) (source_id : Option String)
      (top_k : Nat) (temperature : Rat),
      semanticSearch env user_message top_k source_id (some course_id) = [] →
      generateAnswer env conversation_id conversation_history course_id user_message stage
          source_id top_k temperature =
        { conversation_id := conversation_id
          conversation_history := conversation_history
          course_id := course_id
          user_message := user_message
          stage := stage
          final_answer := noRelevantAnswer
          sources := []
          timestamp := env.now
          success := false
          error := some "No relevant content found in RAG" } := by
  intro env cidv hist crs um st sid k t hempty
  simp [generateAnswer, hempty]

/-- Witness for `no_content_short_circuit`: under `envNoop` nothing is
retrieved and the envelope echoes the input history unchanged. -/
theorem no_content_short_circuit_witness :
    semanticSearch envNoop "m" 5 none (some "c") = [] ∧
    generateAnswer envNoop "id" [histPrev] "c" "m" "regular_chat" none 5 (3 / 10) =
      { conversation_id := "id"
        conversation_history := [histPrev]
        course_id := "c"
        user_message := "m"
        stage := "regular_chat"
        final_answer := noRelevantAnswer
        sources := []
        timestamp := envNoop.now
        success := false
        error := some "No relevant content found in RAG" } :=
  ⟨rfl, no_content_short_circuit envNoop "id" [histPrev] "c" "m" "regular_chat" none 5
    (3 / 10) rfl⟩

theorem foldl_addChunkIfNew_eq_dedup :
    ∀ (stream : List Chunk) (acc : List Chunk) (seen : List String),
      (stream.foldl (fun st c => addChunkIfNew st.1 st.2 c) (acc, seen)).1 =
        acc ++ dedupById stream seen := by
  intro stream
  induction stream with
  | nil => intro acc seen; simp [dedupById]
  | cons c rest ih =>
    intro acc seen
    simp only [List.foldl_cons]
    show (List.foldl (fun st c => addChunkIfNew st.1 st.2 c)
        (addChunkIfNew acc seen c) rest).1 = acc ++ dedupById (c :: rest) seen
    cases hid : c.id with
    | none =>
      rw [show addChunkIfNew acc seen c = (acc, seen) by simp [addChunkIfNew, hid]]
      rw [ih]
      rw [show dedupById (c :: rest) seen = dedupById rest seen by simp [dedupById, hid]]
    | some cid =>
      by_cases hnew : cid ≠ "" ∧ cid ∉ seen
      · rw [show addChunkIfNew acc seen c = (acc ++ [c], seen ++ [cid]) by
          simp [addChunkIfNew, hid, hnew]]
        rw [ih]
        rw [show dedupById (c :: rest) seen = c :: dedupById rest (seen ++ [cid]) by
          simp [dedupById, hid, hnew]]
        simp
      · rw [show addChunkIfNew acc seen c = (acc, seen) by simp [addChunkIfNew, hid, hnew]]
        rw [ih]
        rw [show dedupById (c :: rest) seen = dedupById rest seen by
          simp [dedupById, hid, hnew]]

theorem expandWithAdjacent_none_eq :
    ∀ (env : Env) (chunks : List Chunk) (i : Nat) (acc : List Chunk) (seen : List String),
      expandWithAdjacent env none chunks i acc seen =
        .ok (((expansionStream env chunks).foldl
          (fun st c => addChunkIfNew st.1 st.2 c) (acc, seen)).1) := by
  intro env chunks
  induction chunks with
  | nil => intro i acc seen; simp [expandWithAdjacent, expansionStream]
  | cons chunk rest ih =>
    intro i acc seen
    simp only [expandWithAdjacent]
    rw [if_neg (by simp)]
    rw [ih]
    congr 1
    simp [expansionStream, List.foldl_append]

theorem dedupById_nodup :
    ∀ (stream : List Chunk) (seen : List String),
      ((dedupById stream seen).filterMap Chunk.id).Nodup ∧
      ∀ s ∈ (dedupById stream seen).filterMap Chunk.id, s ∉ seen := by
  intro stream
  induction stream with
  | nil => intro seen; simp [dedupById]
  | cons c rest ih =>
    intro seen
    cases hid : c.id with
    | none =>
      rw [show dedupById (c :: rest) seen = dedupById rest seen by simp [dedupById, hid]]
      exact ih seen
    | some cid =>
      by_cases hnew : cid ≠ "" ∧ cid ∉ seen
      · have h2 := ih (seen ++ [cid])
        rw [show dedupById (c :: rest) seen = c :: dedupById rest (seen ++ [cid]) by
          simp [dedupById, hid, hnew]]
        have hfm : (c :: dedupById rest (seen ++ [cid])).filterMap Chunk.id =
            cid :: (dedupById rest (seen ++ [cid])).filterMap Chunk.id := by
          simp [List.filterMap_cons, hid]
        rw [hfm]
        constructor
        · rw [List.nodup_cons]
          refine ⟨fun hmem => ?_, h2.1⟩
          have := h2.2 cid hmem
          simp at this
        · intro s hs
          rw [List.mem_cons] at hs
          rcases hs with hs | hs
          · subst hs; exact hnew.2
          · intro hseen
            exact (h2.2 s hs) (by simp [hseen])
      · rw [show dedupById (c :: rest) seen = dedupById rest seen by
          simp [dedupById, hid, hnew]]
        exact ih seen

/-- Claim C3: `search_best_answers` deduplicates by chunk id in one
accumulating set across the whole expansion — its result is exactly the
first-occurrence deduplication of the expansion stream (each ranked
chunk followed by its neighbors, in ranked order), so every id appears
at most once, at its first-encountered position; and in the concrete
scenario where the ranked list is `[c5, c6]` with `c6` the
index-plus-one neighbor of `c5`, the result is `[c5, c6]`, each exactly
once, in that order. -/
theorem search_with_context_dedup :
    (∀ (env : Env) (q : String) (k : Nat) (sid cid : Option String),
      searchBestAnswers env q k sid cid =
        dedupById (expansionStream env (semanticSearch env q k sid cid)) [] ∧
      ((searchBestAnswers env q k sid cid).filterMap Chunk.id).Nodup) ∧
    searchBestAnswers envScenario "q" 2 none none = [c5chunk, c6chunk] := by
  constructor
  · intro env q k sid cid
    have hmain : searchBestAnswers env q k sid cid =
        dedupById (expansionStream env (semanticSearch env q k sid cid)) [] := by
      by_cases hne : semanticSearch env q k sid cid = []
      · simp [searchBestAnswers, searchBestAnswersF, hne, expansionStream, dedupById]
      · have hemp : (semanticSearch env q k sid cid).isEmpty = false := by
          simp [List.isEmpty_iff, hne]
        have hstep := expandWithAdjacent_none_eq env (semanticSearch env q k sid cid) 0 [] []
        simp [searchBestAnswers, searchBestAnswersF, hemp, hstep,
          foldl_addChunkIfNew_eq_dedup]
    exact ⟨hmain, hmain ▸ (dedupById_nodup _ []).1⟩
  · decide

theorem expandWithAdjacent_fault :
    ∀ (env : Env) (chunks : List Chunk) (j base : Nat) (acc : List Chunk) (seen : List String),
      base ≤ j → j < base + chunks.length →
      expandWithAdjacent env (some j) chunks base acc seen = .error "interrupted" := by
  intro env chunks
  induction chunks with
  | nil =>
    intro j base acc seen h1 h2
    exfalso
    simp at h2
    omega
  | cons c rest ih =>
    intro j base acc seen h1 h2
    by_cases hj : j = base
    · subst hj
      simp [expandWithAdjacent]
    · simp only [expandWithAdjacent]
      rw [if_neg (by simp [hj])]
      refine ih j (base + 1) _ _ (by omega) ?_
      simp at h2 ⊢
      omega

/-- Claim C6: if an exception reaches the outer handler of
`search_best_answers` while the adjacent-chunk expansion is processing
some ranked chunk, the call does not fail — the handler runs the
primary semantic search again and returns its (unexpanded) ranked
results, which under the deterministic environment are exactly the
ranked results the interrupted expansion started from. -/
theorem expansion_fault_returns_ranked_results :
    ∀ (env : Env) (q : String) (k : Nat) (sid cid : Option String) (i : Nat),
      semanticSearch env q k sid cid ≠ [] →
      i < (semanticSearch env q k sid cid).length →
      searchBestAnswersF env (some i) q k sid cid = semanticSearch env q k sid cid := by
  intro env q k sid cid i hne hlt
  have hemp : (semanticSearch env q k sid cid).isEmpty = false := by
    simp [List.isEmpty_iff, hne]
  have hstep := expandWithAdjacent_fault env (semanticSearch env q k sid cid) i 0 [] []
    (Nat.zero_le i) (by simpa using hlt)
  simp [searchBestAnswersF, hemp, hstep]

/-- Witness for `expansion_fault_returns_ranked_results`: under the
scenario environment, a fault delivered while processing the second
ranked chunk still yields the two ranked chunks. -/
theorem expansion_fault_witness :
    semanticSearch envScenario "q" 2 none none ≠ [] ∧
    1 < (semanticSearch envScenario "q" 2 none none).length ∧
    searchBestAnswersF envScenario (some 1) "q" 2 none none =
      semanticSearch envScenario "q" 2 none none :=
  ⟨by decide, by decide,
    expansion_fault_returns_ranked_results envScenario "q" 2 none none 1 (by decide)
      (by decide)⟩

/-- Claim C1 audit: in a successful `generate_answer` run the returned
history has length N+2, the second-to-last entry has role user and
content equal to the literal template
"User query: {query}\n\nRelevant context:\n{context}", and the last
entry is the trimmed model answer; but that second-to-last content is
NOT the exact text of the user message sent to the completion model —
the message actually sent (the last element of the composed message
sequence) carries eight extra spaces of indentation before the context
block, because `generate_answer` re-builds the string instead of
reusing the one `_build_conversation_messages` sent, contradicting the
source comment that the history entry is the message "as it was sent to
the model". -/
theorem history_entry_differs_from_model_message :
    (generateAnswer envRAG "conv" [histPrev] "c1" "q" "regular_chat" none 5 (3 / 10)).success
        = true ∧
    (generateAnswer envRAG "conv" [histPrev] "c1" "q" "regular_chat" none 5
        (3 / 10)).conversation_history =
      [histPrev,
       { role := some "user",
         content := some "User query: q\n\nRelevant context:\nSource 1:\nalpha",
         timestamp := some envRAG.now },
       { role := some "assistant", content := some "the answer",
         timestamp := some envRAG.now }] ∧
    (buildConversationMessages [histPrev] "q" (buildContextFromChunks [chunkAlpha])
        (loadSyllabus envRAG "c1")).getLastD { role := "", content := "" } =
      { role := "user",
        content := "User query: q\n\n        Relevant context:\n        Source 1:\nalpha" } ∧
    ("User query: q\n\nRelevant context:\nSource 1:\nalpha" : String) ≠
      "User query: q\n\n        Relevant context:\n        Source 1:\nalpha" := by
  refine ⟨rfl, by decide, by decide, by decide⟩

set_option maxRecDepth 8000 in
/-- Counterexample to claim C7: `get_help` envelopes are not
shape-stable — the success envelope carries a conversation_history key
that the invalid-mode envelope does not carry. -/
theorem get_help_not_shape_stable :
    "conversation_history" ∈
      helpEnvelopeKeys (getHelp envHelp "cid" [] "lecture" "x" "q") ∧
    "conversation_history" ∉
      helpEnvelopeKeys (getHelp envHelp "cid" [] "bogus" "x" "q") := by
  decide

/-- Claim C7 amended: every `get_help` envelope carries one of exactly
three key shapes — the eight common keys alone (invalid mode and no
content), the common keys plus conversation_history (success), or the
common keys plus error (exception); the common keys, including the
success flag, are present in every shape, so a caller can still branch
on success, but the key set is not identical across outcomes. -/
theorem get_help_envelope_key_shapes :
    (∀ (env : Env) (conversation_id : String) (conversation_history : List HistMsg)
      (mode identifier query : String),
      helpEnvelopeKeys (getHelp env conversation_id conversation_history mode identifier query)
          = helpKeysFailure ∨
      helpEnvelopeKeys (getHelp env conversation_id conversation_history mode identifier query)
          = helpKeysSuccess ∨
      helpEnvelopeKeys (getHelp env conversation_id conversation_history mode identifier query)
          = helpKeysError) ∧
    helpKeysFailure ⊆ helpKeysSuccess ∧ helpKeysFailure ⊆ helpKeysError ∧
    "success" ∈ helpKeysFailure := by
  refine ⟨?_, by decide, by decide, by decide⟩
  intro env cidv hist mode idf q
  have hw : ∀ results : List Chunk,
      helpEnvelopeKeys (getHelpWithResults env cidv hist mode idf q results) = helpKeysFailure ∨
      helpEnvelopeKeys (getHelpWithResults env cidv hist mode idf q results) = helpKeysSuccess ∨
      helpEnvelopeKeys (getHelpWithResults env cidv hist mode idf q results) = helpKeysError := by
    intro results
    simp only [getHelpWithResults]
    split
    · left; rfl
    · split
      · right; right; rfl
      · right; left; rfl
  simp only [getHelp]
  split
  · exact hw _
  · split
    · exact hw _
    · left; rfl

set_option maxRecDepth 8000 in
/-- Counterexample to claim C8: the text preview copied by
`_extract_sources_info` is the entire chunk text, not a capped preview
— for a 250-character text the record carries all 250 characters,
exceeding both preview lengths appearing in this codebase (150 in
`get_help`, 200 in the logging previews). -/
theorem text_preview_not_capped :
    (extractSourcesInfo [chunkLongText]).map SourceInfo.text_preview = [longText] ∧
    200 < longText.length := by
  decide

theorem truthy_field_ne_empty (o : Option String) :
    (if pyTruthy o then o else none) ≠ some "" := by
  cases o with
  | none => simp
  | some s =>
    by_cases hs : s = ""
    · subst hs; simp [pyTruthy]
    · simp [pyTruthy, hs]

theorem extractSourcesInfoFrom_length :
    ∀ (chunks : List Chunk) (base : Nat),
      (extractSourcesInfoFrom base chunks).length = chunks.length := by
  intro chunks
  induction chunks with
  | nil => intro base; rfl
  | cons c rest ih => intro base; simp [extractSourcesInfoFrom, ih]

theorem extractSourcesInfoFrom_get :
    ∀ (chunks : List Chunk) (base i : Nat)
      (h1 : i < (extractSourcesInfoFrom base chunks).length) (h2 : i < chunks.length),
      (extractSourcesInfoFrom base chunks).get ⟨i, h1⟩ =
        extractSourceInfo (base + i) (chunks.get ⟨i, h2⟩) := by
  intro chunks
  induction chunks with
  | nil => intro base i h1 h2; exact absurd h2 (by simp)
  | cons c rest ih =>
    intro base i h1 h2
    cases i with
    | zero => simp [extractSourcesInfoFrom]
    | succ j =>
      have hj1 : j < (extractSourcesInfoFrom (base + 1) rest).length := by
        have := h1
        simp [extractSourcesInfoFrom] at this
        simpa [extractSourcesInfoFrom_length] using this
      have hj2 : j < rest.length := by
        simpa using h2
      have := ih (base + 1) j hj1 hj2
      simp only [extractSourcesInfoFrom, List.get_cons_succ]
      rw [this]
      congr 1
      omega

theorem extractSourcesInfoFrom_no_empty :
    ∀ (chunks : List Chunk) (base : Nat) (r : SourceInfo),
      r ∈ extractSourcesInfoFrom base chunks →
      r.start_time ≠ some "" ∧ r.end_time ≠ some "" ∧ r.section_title ≠ some "" := by
  intro chunks
  induction chunks with
  | nil => intro base r hr; exact absurd hr (by simp [extractSourcesInfoFrom])
  | cons c rest ih =>
    intro base r hr
    rw [extractSourcesInfoFrom, List.mem_cons] at hr
    rcases hr with hr | hr
    · subst hr
      exact ⟨truthy_field_ne_empty _, truthy_field_ne_empty _, truthy_field_ne_empty _⟩
    · exact ih (base + 1) r hr

/-- Claim C8 amended: `_extract_sources_info` returns one record per
chunk with a 1-based index in input order, copying source and course
identifiers, chunk index, a relevance score defaulting to 0 when
absent, and a text preview equal to the FULL chunk text (no
preview-length cap is applied at this layer); the start_time, end_time
and section_title keys are present only when the corresponding field is
truthy on the chunk, so they are never emitted as empty placeholders. -/
theorem extract_sources_fields :
    ∀ (chunks : List Chunk),
      (extractSourcesInfo chunks).length = chunks.length ∧
      (∀ (i : Nat) (h1 : i < (extractSourcesInfo chunks).length) (h2 : i < chunks.length),
        (extractSourcesInfo chunks).get ⟨i, h1⟩ =
          { index := i + 1
            source_id := (chunks.get ⟨i, h2⟩).source_id.getD ""
            course_id := (chunks.get ⟨i, h2⟩).course_id.getD ""
            chunk_index := (chunks.get ⟨i, h2⟩).chunk_index.getD 0
            relevance_score := (chunks.get ⟨i, h2⟩).score.getD 0
            text_preview := (chunks.get ⟨i, h2⟩).text.getD ""
            start_time := if pyTruthy (chunks.get ⟨i, h2⟩).start_time then
                (chunks.get ⟨i, h2⟩).start_time else none
            end_time := if pyTruthy (chunks.get ⟨i, h2⟩).end_time then
                (chunks.get ⟨i, h2⟩).end_time else none
            section_title := if pyTruthy (chunks.get ⟨i, h2⟩).section_title then
                (chunks.get ⟨i, h2⟩).section_title else none }) ∧
      ∀ r ∈ extractSourcesInfo chunks,
        r.start_time ≠ some "" ∧ r.end_time ≠ some "" ∧ r.section_title ≠ some "" := by
  intro chunks
  refine ⟨extractSourcesInfoFrom_length chunks 1, fun i h1 h2 => ?_,
    fun r hr => extractSourcesInfoFrom_no_empty chunks 1 r hr⟩
  have h := extractSourcesInfoFrom_get chunks 1 i h1 h2
  have h3 : extractSourceInfo (1 + i) (chunks.get ⟨i, h2⟩) =
      extractSourceInfo (i + 1) (chunks.get ⟨i, h2⟩) := by rw [Nat.add_comm]
  exact h.trans (h3.trans rfl)

/-- Witness for `extract_sources_fields`: the record extracted for a
concrete video chunk, with the times present and no section-title
key. -/
theorem extract_sources_fields_witness :
    (extractSourcesInfo [chunkVideo]).get ⟨0, by decide⟩ =
      { index := 1, source_id := "s", course_id := "c", chunk_index := 2,
        relevance_score := 1, text_preview := "t",
        start_time := some "00:01", end_time := some "00:02", section_title := none } :=
  ((extract_sources_fields [chunkVideo]).2.1 0 (by decide) (by decide)).trans (by decide)
